import Mathlib

/-
Verification of the recording-session core of the Boxing Video Analyzer.

The embedding below translates the recording component
(src/components/RecordingMode.tsx, given here as unnamed part_006 — the
version whose props match App.tsx — with the older copy at
src/src/components/RecordingMode.tsx agreeing on everything modelled
except where noted) and the session publisher
(src/context/RecordingContext.tsx).

Modelling conventions:
- A platform MediaStream is a `Stream` record carrying its id and its
  video/audio track counts.  The component state tracks, in
  `openStreams`, the ids of all platform streams whose tracks have not
  been stopped (`track.stop()` removes the stream from `openStreams`).
- `MediaRecorder` is a `Recorder` record: its `state` field
  (recording/paused/inactive), the mime type requested by
  `createRecorder`, the mime type the platform actually negotiated
  (`recorder.mimeType` as read back from the platform), and the chunks
  delivered by `ondataavailable`.
- React `useCallback` closures capture the state of the render in which
  they were created.  Inside one `startRecording` invocation the
  `stopAllStreams` callback therefore sees the stream values from
  before the invocation; `startRecording` takes that snapshot at entry
  and every `stopAllStreams()` call inside it uses the snapshot.
- Asynchronous platform results (device acquisition, codec support,
  negotiated mime) are supplied by a `StartEnv` record.
-/

namespace BoxingRec

/-- Session status, from the `useState` union in RecordingMode. -/
inductive Status
  | idle
  | connecting
  | recording
  | paused
  | stopped
deriving DecidableEq, Repr

/-- `MediaRecorder.state` values. -/
inductive RecorderPhase
  | recording
  | paused
  | inactive
deriving DecidableEq, Repr

/-- A platform media stream: identity plus track counts. -/
structure Stream where
  id : Nat
  videoTracks : Nat
  audioTracks : Nat
deriving DecidableEq, Repr

/-- The `MediaRecorder` together with the mime bookkeeping of
`startRecording`: `reqMime` is the `mimeType` value returned by
`createRecorder`, `negotiatedMime` is what the platform reports as
`recorder.mimeType`, `chunks` the sizes pushed by `ondataavailable`. -/
structure Recorder where
  phase : RecorderPhase
  reqMime : String
  negotiatedMime : String
  chunks : List Nat
deriving DecidableEq, Repr

/-- The RecordingMode component state (the parts the recording session
touches), plus `openStreams`: the ids of platform streams whose tracks
are still live.  `mixerScreenConnected` / `mixerMicConnected` record
which audio-graph connections `startRecording` made into the mixing
destination, and `faceOverlayActive` whether `drawToCanvas` has a
camera stream to overlay. -/
structure RecState where
  status : Status
  cameraEnabled : Bool
  micEnabled : Bool
  screenStream : Option Stream
  cameraStream : Option Stream
  micStream : Option Stream
  openStreams : List Nat
  recordingStreams : List Nat
  recorder : Option Recorder
  recordedBlob : Option (List Nat × String)
  error : Option String
  durationTicks : Nat
  intervalActive : Bool
  rafScheduled : Bool
  mixerScreenConnected : Bool
  mixerMicConnected : Bool
  faceOverlayActive : Bool
deriving DecidableEq, Repr

/-- Error message of the camera fallback path in `startRecording`. -/
def cameraWarningMsg : String :=
  "Could not access camera (it may be in use by another app). Recording without face camera."

/-- Error message when the display stream has no video track. -/
def noScreenTrackMsg : String :=
  "Could not capture screen. Make sure you selected a window or screen to share."

/-- Error message of the second (post-canvas) video-track check. -/
def noVideoTrackMsg : String := "No video track from screen share."

/-- Error message when the recording canvas ref is not mounted. -/
def canvasNotReadyMsg : String := "Recording canvas not ready. Please try again."

/-- Error message when the 2d context cannot be created. -/
def canvasCtxMsg : String := "Could not initialize recording canvas."

/-- Error message set by the outer catch of `startRecording` (the
platform-dependent hint suffix is omitted from the model). -/
def startFailedMsg : String := "Could not start recording."

/-- Error message of the zero-chunk branch of `processChunks`. -/
def emptyRecordingMsg : String :=
  "Recording produced no data. Try recording for at least a few seconds."

/-- Requested mime of the first cascade entry. -/
def vp9Mime : String := "video/webm;codecs=vp9"

/-- Requested mime of the second cascade entry. -/
def vp8Mime : String := "video/webm;codecs=vp8"

/-- Stop every track of one (optional) stream: its id leaves the set of
open platform streams. -/
def stopStreamTracks (live : List Nat) (s : Option Stream) : List Nat :=
  match s with
  | none => live
  | some st => live.filter (fun i => i ≠ st.id)

/-- `stopAllStreams` from RecordingMode.  It is a `useCallback` over
`[screenStream, cameraStream, micStream]`, so the three streams it
stops are the ones captured by its closure — the caller passes that
snapshot explicitly.  It then sets the three stream states to null. -/
def stopAllStreams (snapScreen snapCam snapMic : Option Stream) (s : RecState) : RecState :=
  { s with
    openStreams :=
      stopStreamTracks (stopStreamTracks (stopStreamTracks s.openStreams snapScreen) snapCam) snapMic,
    screenStream := none,
    cameraStream := none,
    micStream := none }

/-- Platform responses consumed by one `startRecording` invocation. -/
structure StartEnv where
  displayAcqAV : Option Stream
  displayAcqVideoOnly : Option Stream
  camAcq : Option Stream
  micAcq : Option Stream
  canvasReady : Bool
  ctxOk : Bool
  vp9Supported : Bool
  vp9CtorOk : Bool
  vp8Supported : Bool
  vp8CtorOk : Bool
  plainCtorOk : Bool
  plainCtorReportedMime : String
  negotiatedMime : String
deriving Repr

/-- `getDisplayMedia({video, audio:true})`, retried video-only on
failure; `none` means both attempts threw. -/
def acquireDisplay (env : StartEnv) : Option Stream :=
  match env.displayAcqAV with
  | some d => some d
  | none => env.displayAcqVideoOnly

/-- The `createRecorder` fallback cascade of `startRecording`: walk the
ordered `mimeTypes` list, use the first entry the platform both reports
as supported and constructs; otherwise fall back to a plain
`MediaRecorder`, whose reported mime (or vp9 when empty) becomes the
requested mime; `none` when even that constructor throws. -/
def createRecorder (env : StartEnv) : Option String :=
  if env.vp9Supported && env.vp9CtorOk then some vp9Mime
  else if env.vp8Supported && env.vp8CtorOk then some vp8Mime
  else if env.plainCtorOk then
    some (if env.plainCtorReportedMime = "" then vp9Mime else env.plainCtorReportedMime)
  else none

/-- The tail of `startRecording` once a display stream is in hand:
video-track check, optional camera acquisition (recoverable failure),
mandatory microphone acquisition when enabled (failure throws to the
outer catch), canvas checks, audio-mixer wiring, encoder cascade, and
the transition to `recording`.  `snapS/snapC/snapM` is the stale
closure snapshot used by `stopAllStreams`. -/
def startAfterDisplay (snapS snapC snapM : Option Stream) (env : StartEnv)
    (s : RecState) (display : Stream) (camSel audioSel : Option Stream) : RecState :=
  if display.videoTracks = 0 then
    { s with error := some noScreenTrackMsg, status := Status.idle }
  else
    let camPair : RecState × Option Stream :=
      if s.cameraEnabled && camSel.isNone then
        match env.camAcq with
        | some c =>
          ({ s with openStreams := c.id :: s.openStreams, cameraStream := some c }, some c)
        | none => ({ s with error := some cameraWarningMsg }, none)
      else (s, camSel)
    let s := camPair.1
    let camStream := camPair.2
    let micRes : Option (RecState × Option Stream) :=
      if s.micEnabled && audioSel.isNone then
        match env.micAcq with
        | some m =>
          some ({ s with openStreams := m.id :: s.openStreams, micStream := some m }, some m)
        | none => none
      else some (s, audioSel)
    match micRes with
    | none =>
      stopAllStreams snapS snapC snapM { s with error := some startFailedMsg, status := Status.idle }
    | some (s, audioStream) =>
      if !env.canvasReady then { s with error := some canvasNotReadyMsg, status := Status.idle }
      else if !env.ctxOk then { s with error := some canvasCtxMsg, status := Status.idle }
      else if display.videoTracks = 0 then
        stopAllStreams snapS snapC snapM
          { s with error := some noVideoTrackMsg, status := Status.idle }
      else
        match createRecorder env with
        | none =>
          stopAllStreams snapS snapC snapM
            { s with error := some startFailedMsg, status := Status.idle }
        | some reqMime =>
          { s with
            recorder := some
              { phase := RecorderPhase.recording,
                reqMime := reqMime,
                negotiatedMime := env.negotiatedMime,
                chunks := [] },
            status := Status.recording,
            durationTicks := 0,
            intervalActive := true,
            rafScheduled := true,
            mixerScreenConnected := decide (0 < display.audioTracks),
            mixerMicConnected := audioStream.isSome,
            faceOverlayActive := camStream.isSome,
            recordingStreams :=
              display.id :: (camStream.map Stream.id).toList ++ (audioStream.map Stream.id).toList }

/-- `startRecording` (part_006 lines 242-520).  Takes the stale closure
snapshot at entry, clears the error, moves to `connecting`, selects the
pre-connected camera (only when enabled, active and with a video track)
and microphone (only when enabled), acquires the display stream when
not already connected, then continues in `startAfterDisplay`. -/
def startRecording (s0 : RecState) (env : StartEnv) : RecState :=
  let snapS := s0.screenStream
  let snapC := s0.cameraStream
  let snapM := s0.micStream
  let s := { s0 with error := none, status := Status.connecting }
  let camSel : Option Stream :=
    if s.cameraEnabled then
      match s.cameraStream with
      | some c => if decide (c.id ∈ s.openStreams) && decide (0 < c.videoTracks) then some c else none
      | none => none
    else none
  let audioSel : Option Stream := if s.micEnabled then s.micStream else none
  match s.screenStream with
  | some d => startAfterDisplay snapS snapC snapM env s d camSel audioSel
  | none =>
    match acquireDisplay env with
    | none =>
      stopAllStreams snapS snapC snapM { s with error := some startFailedMsg, status := Status.idle }
    | some d =>
      startAfterDisplay snapS snapC snapM env
        { s with openStreams := d.id :: s.openStreams, screenStream := some d } d camSel audioSel

/-- `ondataavailable`: push the chunk when its size is positive. -/
def emitChunk (s : RecState) (size : Nat) : RecState :=
  match s.recorder with
  | none => s
  | some r =>
    if 0 < size then { s with recorder := some { r with chunks := r.chunks ++ [size] } } else s

/-- `pauseRecording`: only when the recorder is recording — pause it,
clear the duration interval, move to `paused`. -/
def pauseRecording (s : RecState) : RecState :=
  match s.recorder with
  | none => s
  | some r =>
    if r.phase = RecorderPhase.recording then
      { s with
        recorder := some { r with phase := RecorderPhase.paused },
        intervalActive := false,
        status := Status.paused }
    else s

/-- `resumeRecording`: only when the recorder is paused — resume it,
move to `recording`, restart the duration interval. -/
def resumeRecording (s : RecState) : RecState :=
  match s.recorder with
  | none => s
  | some r =>
    if r.phase = RecorderPhase.paused then
      { s with
        recorder := some { r with phase := RecorderPhase.recording },
        status := Status.recording,
        intervalActive := true }
    else s

/-- The stream-release block of `recorder.onstop` (part_006 lines
457-463): stop every track of every stream in `recordingStreamsRef`,
clear the ref, null the three stream states. -/
def releaseRecordingStreams (s : RecState) : RecState :=
  { s with
    openStreams := s.openStreams.filter (fun i => decide (i ∉ s.recordingStreams)),
    recordingStreams := [],
    screenStream := none,
    cameraStream := none,
    micStream := none }

/-- Character-list prefix test, the meaning of `String.startsWith`
(restated over `String.data` so that it evaluates by reduction). -/
def charsStartWith : List Char → List Char → Bool
  | _, [] => true
  | [], _ :: _ => false
  | c :: cs, p :: ps => c = p && charsStartWith cs ps

/-- `s.startsWith pre` on the character content of the strings. -/
def strStartsWith (s pre : String) : Bool := charsStartWith s.data pre.data

/-- The declared artifact mime (part_006 line 474): the platform
reported mime when it is a WebM type, the requested mime otherwise. -/
def declaredMimeOf (r : Recorder) : String :=
  if strStartsWith r.negotiatedMime "video/webm" then r.negotiatedMime else r.reqMime

/-- `processChunks` inside `recorder.onstop` (part_006 lines 466-488):
zero chunks reports the empty-recording error and returns to idle;
otherwise the blob is assembled, published, and status becomes
stopped.  `r` is the recorder captured by the onstop closure. -/
def processChunks (r : Recorder) (s : RecState) : RecState :=
  if r.chunks = [] then
    { s with error := some emptyRecordingMsg, status := Status.idle }
  else
    { s with
      recordedBlob := some (r.chunks, declaredMimeOf r),
      status := Status.stopped }

/-- Observable milestones of a stop, for the ordering guarantee. -/
inductive StopEvent
  | flushRequest
  | streamRelease
  | finalizeRun
deriving DecidableEq, Repr

/-- `recorder.onstop` (part_006 lines 448-493), instrumented with the
milestone each statement block realises, in source order: cancel the
frame loop and duration interval, release the recording streams
(lines 457-463), then run `processChunks` — deferred behind a
`setTimeout` (line 492) and hence after the release. -/
def onStopEv (r : Recorder) (s : RecState) : RecState × List StopEvent :=
  let s1 : RecState := { s with rafScheduled := false, intervalActive := false }
  let step2 : RecState × List StopEvent :=
    (releaseRecordingStreams s1, [StopEvent.streamRelease])
  let step3 : RecState × List StopEvent :=
    (processChunks r step2.1, [StopEvent.finalizeRun])
  (step3.1, step2.2 ++ step3.2)

/-- `stopRecording` (part_006 lines 567-576), instrumented: a missing
or inactive recorder is a no-op; otherwise `requestData()` asks the
encoder to flush, `stop()` makes the recorder inactive and fires
`onstop`. -/
def stopRecordingEv (s : RecState) : RecState × List StopEvent :=
  match s.recorder with
  | none => (s, [])
  | some r =>
    if r.phase = RecorderPhase.inactive then (s, [])
    else
      let res := onStopEv { r with phase := RecorderPhase.inactive }
        { s with recorder := some { r with phase := RecorderPhase.inactive } }
      (res.1, StopEvent.flushRequest :: res.2)

/-- `stopRecording`, state part. -/
def stopRecording (s : RecState) : RecState := (stopRecordingEv s).1

/-- The `onended` handler installed on the display video track by
`startRecording` (part_006 lines 266-271): while the recorder is
recording or paused, `rec.stop()` — the implicit stop on
platform-driven screen-share termination. -/
def autoStopScreenEnded (s : RecState) : RecState :=
  match s.recorder with
  | none => s
  | some r =>
    if r.phase = RecorderPhase.recording ∨ r.phase = RecorderPhase.paused then
      (onStopEv { r with phase := RecorderPhase.inactive }
        { s with recorder := some { r with phase := RecorderPhase.inactive } }).1
    else s

/-- One invocation of the `drawFrame` loop body (part_006 lines
406-411): `drawToCanvas` paints whenever the screen video has a
decodable frame (readyState at least 2), and the invocation re-arms
`requestAnimationFrame` exactly when the recorder state is recording
or paused.  Returns (drew a frame, rescheduled itself). -/
def drawFrameStep (phase : Option RecorderPhase) (screenReady : Bool) : Bool × Bool :=
  (screenReady,
   decide (phase = some RecorderPhase.recording ∨ phase = some RecorderPhase.paused))

/-- Ticks fired by one lifetime of the duration interval
(`setInterval(…, 1000)`, part_006 lines 440-442): one tick per full
1000 ms the interval is left running. -/
def intervalTicks (msRunning : Nat) : Nat := msRunning / 1000

/-- The duration the component reports after recording segments of the
given lengths (ms): the interval is cleared on `pauseRecording`
(lines 539-542) and a fresh one is created on `resumeRecording`
(lines 557-559), so each segment contributes its own tick count. -/
def reportedDurationTicks (segmentsMs : List Nat) : Nat :=
  (segmentsMs.map intervalTicks).sum

/-- Wall-clock recording time excluding paused intervals: the sum of
the recording segment lengths. -/
def wallClockRecordingMs (segmentsMs : List Nat) : Nat := segmentsMs.sum

/-- Field names of the published `RecordingState` snapshot
(src/context/RecordingContext.tsx). -/
inductive Field
  | status
  | duration
  | blob
  | pauseRecording
  | resumeRecording
  | stopRecording
deriving DecidableEq, Repr

/-- Values a snapshot field can hold; callables are identified by a
tag. -/
inductive RVal
  | vStatus (s : Status)
  | vNat (n : Nat)
  | vBlob (b : Option (List Nat × String))
  | vCallable (tag : Nat)
deriving DecidableEq, Repr

/-- A JavaScript object literal as an ordered list of properties;
later properties override earlier ones, as in object spread. -/
abbrev JsObj : Type := List (Field × RVal)

/-- Property lookup: the value of the last occurrence of the key. -/
def jsGet (o : JsObj) (k : Field) : Option RVal :=
  match o with
  | [] => none
  | (k2, v) :: rest =>
    match jsGet rest k with
    | some v2 => some v2
    | none => if k2 = k then some v else none

/-- `{ ...a, ...b }`: the properties of `a` followed by those of `b`,
so that `b` overrides. -/
def jsSpread (a b : JsObj) : JsObj := a ++ b

/-- The published session snapshot (`RecordingState`). -/
structure Snapshot where
  status : Status
  duration : Nat
  blob : Option (List Nat × String)
  pauseTag : Nat
  resumeTag : Nat
  stopTag : Nat
deriving DecidableEq, Repr

/-- A snapshot as the object literal with its six properties. -/
def Snapshot.toObj (r : Snapshot) : JsObj :=
  [(Field.status, RVal.vStatus r.status),
   (Field.duration, RVal.vNat r.duration),
   (Field.blob, RVal.vBlob r.blob),
   (Field.pauseRecording, RVal.vCallable r.pauseTag),
   (Field.resumeRecording, RVal.vCallable r.resumeTag),
   (Field.stopRecording, RVal.vCallable r.stopTag)]

/-- `setRecording` of the RecordingContext provider:
`setRecordingState((prev) => ({ ...prev, ...state }))` for a partial
update object. -/
def setRecordingMerge (prev : Snapshot) (upd : JsObj) : JsObj :=
  jsSpread prev.toObj upd

/- Concrete fixtures used by the counterexamples and witnesses. -/

/-- A display stream: video track, no system audio. -/
def screenA : Stream := { id := 1, videoTracks := 1, audioTracks := 0 }

/-- A camera stream connected for preview. -/
def previewCamera : Stream := { id := 2, videoTracks := 1, audioTracks := 0 }

/-- A microphone stream. -/
def micA : Stream := { id := 3, videoTracks := 0, audioTracks := 1 }

/-- The component state after mount: everything idle and empty. -/
def freshIdle : RecState :=
  { status := Status.idle,
    cameraEnabled := false,
    micEnabled := true,
    screenStream := none,
    cameraStream := none,
    micStream := none,
    openStreams := [],
    recordingStreams := [],
    recorder := none,
    recordedBlob := none,
    error := none,
    durationTicks := 0,
    intervalActive := false,
    rafScheduled := false,
    mixerScreenConnected := false,
    mixerMicConnected := false,
    faceOverlayActive := false }

/-- Idle state with a camera connected for preview but excluded from
the recording (the include-in-recording checkbox unchecked). -/
def previewCamIdle : RecState :=
  { freshIdle with
    cameraStream := some previewCamera,
    openStreams := [previewCamera.id] }

/-- Platform environment in which every acquisition and the first
cascade entry succeed. -/
def envAllOk : StartEnv :=
  { displayAcqAV := some screenA,
    displayAcqVideoOnly := none,
    camAcq := none,
    micAcq := some micA,
    canvasReady := true,
    ctxOk := true,
    vp9Supported := true,
    vp9CtorOk := true,
    vp8Supported := true,
    vp8CtorOk := true,
    plainCtorOk := true,
    plainCtorReportedMime := "",
    negotiatedMime := vp9Mime }

/-- Environment in which the mandatory microphone acquisition fails. -/
def envMicFail : StartEnv := { envAllOk with micAcq := none }

/-- Environment in which no cascade entry is accepted: neither vp9 nor
vp8 is supported and the plain constructor throws. -/
def envNoEncoder : StartEnv :=
  { envAllOk with
    vp9Supported := false,
    vp9CtorOk := false,
    vp8Supported := false,
    vp8CtorOk := false,
    plainCtorOk := false }

/-- An active recorder mid-session (one 100-byte chunk delivered). -/
def recActive : Recorder :=
  { phase := RecorderPhase.recording,
    reqMime := vp9Mime,
    negotiatedMime := vp9Mime,
    chunks := [100] }

/-- A mid-recording state: screen and microphone captured into the
session, the preview camera open but excluded. -/
def midSession : RecState :=
  { freshIdle with
    status := Status.recording,
    cameraStream := some previewCamera,
    screenStream := some screenA,
    micStream := some micA,
    openStreams := [micA.id, screenA.id, previewCamera.id],
    recordingStreams := [screenA.id, micA.id],
    recorder := some recActive,
    intervalActive := true,
    rafScheduled := true,
    mixerMicConnected := true }


/-- State for the C5 scenario: screen pre-connected, camera and
microphone both enabled for the recording, neither pre-connected. -/
def c5State (d : Stream) : RecState :=
  { freshIdle with cameraEnabled := true, screenStream := some d, openStreams := [d.id] }

/-- Environment for the C5 scenario: camera acquisition fails
(device busy), microphone acquisition succeeds. -/
def c5Env (m : Stream) : StartEnv := { envAllOk with micAcq := some m }

/-- The platform-reported mime of a recorder that silently negotiated
a non-WebM container. -/
def matroskaMime : String := "video/x-matroska;codecs=avc1"

/-- A recorder whose platform-negotiated encoding differs from the
requested one. -/
def recMatroska : Recorder :=
  { phase := RecorderPhase.recording,
    reqMime := vp9Mime,
    negotiatedMime := matroskaMime,
    chunks := [5] }

/-- Mid-session state whose recorder negotiated a non-WebM mime. -/
def midSessionMatroska : RecState := { midSession with recorder := some recMatroska }


/- Helper lemmas shared by the claim theorems. -/

/-- Unfolding of an explicit stop of an active recorder. -/
theorem stopRecordingEv_active (s : RecState) (r : Recorder)
    (hr : s.recorder = some r) (hph : ¬ r.phase = RecorderPhase.inactive) :
    stopRecordingEv s =
      (processChunks { r with phase := RecorderPhase.inactive }
        (releaseRecordingStreams
          { s with recorder := some { r with phase := RecorderPhase.inactive },
                   rafScheduled := false, intervalActive := false }),
       [StopEvent.flushRequest, StopEvent.streamRelease, StopEvent.finalizeRun]) := by
  unfold stopRecordingEv
  simp only [hr]
  rw [if_neg hph]
  rfl

/-- Unfolding of the implicit stop (screen-share termination) of an
active recorder. -/
theorem autoStopScreenEnded_active (s : RecState) (r : Recorder)
    (hr : s.recorder = some r)
    (hor : r.phase = RecorderPhase.recording ∨ r.phase = RecorderPhase.paused) :
    autoStopScreenEnded s =
      processChunks { r with phase := RecorderPhase.inactive }
        (releaseRecordingStreams
          { s with recorder := some { r with phase := RecorderPhase.inactive },
                   rafScheduled := false, intervalActive := false }) := by
  unfold autoStopScreenEnded
  simp only [hr]
  rw [if_pos hor]
  rfl

/-- `processChunks` never touches the open-stream set. -/
theorem processChunks_openStreams (r : Recorder) (s : RecState) :
    (processChunks r s).openStreams = s.openStreams := by
  unfold processChunks
  split <;> rfl

/-- `processChunks` never touches the recorder. -/
theorem processChunks_recorder (r : Recorder) (s : RecState) :
    (processChunks r s).recorder = s.recorder := by
  unfold processChunks
  split <;> rfl

/-- The open streams after the release block are those not captured in
the recording. -/
theorem releaseRecordingStreams_openStreams (s : RecState) :
    (releaseRecordingStreams s).openStreams =
      s.openStreams.filter (fun i => decide (i ∉ s.recordingStreams)) := rfl

/-- Property lookup distributes over object spread: the right operand
wins whenever it has the property. -/
theorem jsGet_append (a b : JsObj) (k : Field) :
    jsGet (a ++ b) k = if (jsGet b k).isSome then jsGet b k else jsGet a k := by
  induction a with
  | nil =>
    cases h : jsGet b k <;> simp [jsGet, h]
  | cons hd tl ih =>
    rcases hd with ⟨k2, v⟩
    cases h : jsGet b k <;> simp [jsGet, ih, h]

/- Claim theorems. -/

/-- C1: the repository audit and the spec say duration accounting uses
a monotonic clock sampled at pause/resume/stop boundaries, within one
tick of wall-clock recording time; the code counts 1-second interval
ticks and restarts the interval phase at every resume, so three 900 ms
recording segments report 0 ticks while 2700 ms of recording elapsed —
more than one 1000 ms tick of error. -/
theorem c1_duration_tick_counter :
    reportedDurationTicks [900, 900, 900] = 0 ∧
    wallClockRecordingMs [900, 900, 900] = 2700 ∧
    1000 < wallClockRecordingMs [900, 900, 900] -
      1000 * reportedDurationTicks [900, 900, 900] := by decide

/-- C2 counterexample: a camera stream connected for preview but
excluded from the recording (include checkbox unchecked) is still open
after `stop()` completes — the claim that zero platform streams remain
open is false. -/
theorem c2_stop_leaves_preview_camera_open :
    (stopRecording (emitChunk (startRecording previewCamIdle envAllOk) 100)).status =
      Status.stopped ∧
    previewCamera.id ∈
      (stopRecording (emitChunk (startRecording previewCamIdle envAllOk) 100)).openStreams := by
  decide

/-- C2 amended: after an explicit or implicit stop of an active
session, every stream that was captured into the recording session is
released. -/
theorem c2_stop_releases_recording_streams (s : RecState) (r : Recorder) (i : Nat)
    (hr : s.recorder = some r) (hph : ¬ r.phase = RecorderPhase.inactive)
    (hi : i ∈ s.recordingStreams) :
    i ∉ (stopRecording s).openStreams ∧ i ∉ (autoStopScreenEnded s).openStreams := by
  have hor : r.phase = RecorderPhase.recording ∨ r.phase = RecorderPhase.paused := by
    cases h : r.phase
    · exact Or.inl rfl
    · exact Or.inr rfl
    · exact absurd h hph
  have key : ∀ t : RecState,
      t.openStreams = s.openStreams.filter (fun j => decide (j ∉ s.recordingStreams)) →
      i ∉ t.openStreams := by
    intro t ht hmem
    rw [ht] at hmem
    have h2 := (List.mem_filter.mp hmem).2
    exact (of_decide_eq_true h2) hi
  constructor
  · refine key _ ?_
    show (stopRecordingEv s).1.openStreams = _
    rw [stopRecordingEv_active s r hr hph]
    rw [processChunks_openStreams, releaseRecordingStreams_openStreams]
  · refine key _ ?_
    rw [autoStopScreenEnded_active s r hr hor]
    rw [processChunks_openStreams, releaseRecordingStreams_openStreams]

/-- C2 amended, witness at the concrete mid-session state. -/
theorem c2_stop_releases_recording_streams_witness :
    midSession.recorder = some recActive ∧
    screenA.id ∈ midSession.recordingStreams ∧
    screenA.id ∉ (stopRecording midSession).openStreams ∧
    screenA.id ∉ (autoStopScreenEnded midSession).openStreams := by
  refine ⟨rfl, by decide, ?_, ?_⟩
  · exact (c2_stop_releases_recording_streams midSession recActive screenA.id rfl
      (by decide) (by decide)).1
  · exact (c2_stop_releases_recording_streams midSession recActive screenA.id rfl
      (by decide) (by decide)).2

/-- C3 counterexample: in the shipped stop path the finalize callback
runs after the capture sources release their streams (it is deferred
behind a timeout), so the claimed order flush–finalize–release is
false. -/
theorem c3_finalize_after_release :
    (stopRecordingEv midSession).2 =
      [StopEvent.flushRequest, StopEvent.streamRelease, StopEvent.finalizeRun] ∧
    (stopRecordingEv midSession).2 ≠
      [StopEvent.flushRequest, StopEvent.finalizeRun, StopEvent.streamRelease] := by
  decide

/-- C3 amended: per session, stopping an active recorder performs
exactly once, in this order: the encoder flush request, the release of
every capture stream, then the finalize callback; a second stop on the
already-stopped session is a no-op with an empty event trace. -/
theorem c3_stop_order_once (s : RecState) (r : Recorder)
    (hr : s.recorder = some r) (hph : ¬ r.phase = RecorderPhase.inactive) :
    (stopRecordingEv s).2 =
      [StopEvent.flushRequest, StopEvent.streamRelease, StopEvent.finalizeRun] ∧
    stopRecording (stopRecording s) = stopRecording s ∧
    (stopRecordingEv (stopRecording s)).2 = [] := by
  have h1 := stopRecordingEv_active s r hr hph
  have hrec2 : (stopRecording s).recorder = some { r with phase := RecorderPhase.inactive } := by
    show (stopRecordingEv s).1.recorder = _
    rw [h1]
    rw [processChunks_recorder]
    rfl
  have hstop2 : stopRecordingEv (stopRecording s) = (stopRecording s, []) := by
    unfold stopRecordingEv
    simp only [hrec2]
    rw [if_pos trivial]
  refine ⟨?_, ?_, ?_⟩
  · rw [h1]
  · show (stopRecordingEv (stopRecording s)).1 = stopRecording s
    rw [hstop2]
  · rw [hstop2]

/-- C3 amended, witness at the concrete mid-session state. -/
theorem c3_stop_order_once_witness :
    midSession.recorder = some recActive ∧
    ((stopRecordingEv midSession).2 =
      [StopEvent.flushRequest, StopEvent.streamRelease, StopEvent.finalizeRun] ∧
     stopRecording (stopRecording midSession) = stopRecording midSession ∧
     (stopRecordingEv (stopRecording midSession)).2 = []) :=
  ⟨rfl, c3_stop_order_once midSession recActive rfl (by decide)⟩

/-- C4: the claim says a mandatory-acquisition failure releases every
stream partially acquired during the attempt; in the code the failure
path calls a `stopAllStreams` whose closure only sees the streams from
before the attempt, so a screen stream acquired during the failing
attempt stays open while the session returns to idle with the error
surfaced. -/
theorem c4_mandatory_failure_leaks_new_stream :
    (startRecording freshIdle envMicFail).status = Status.idle ∧
    (startRecording freshIdle envMicFail).error = some startFailedMsg ∧
    screenA.id ∈ (startRecording freshIdle envMicFail).openStreams := by decide
/-- C5: during start, a camera failure is recoverable (warning surfaced,
recording proceeds without the face overlay) while a microphone failure
with audio enabled aborts back to idle; in the scenario screen ok,
camera busy, microphone ok, the session records screen plus microphone
audio with no face overlay and a non-fatal warning. -/
theorem c5_camera_optional_mic_mandatory (d m : Stream) (hd : 0 < d.videoTracks) :
    ((startRecording (c5State d) (c5Env m)).status = Status.recording ∧
     (startRecording (c5State d) (c5Env m)).error = some cameraWarningMsg ∧
     (startRecording (c5State d) (c5Env m)).recorder.isSome = true ∧
     (startRecording (c5State d) (c5Env m)).faceOverlayActive = false ∧
     (startRecording (c5State d) (c5Env m)).recordingStreams = [d.id, m.id] ∧
     (startRecording (c5State d) (c5Env m)).mixerMicConnected = true ∧
     (startRecording (c5State d) (c5Env m)).mixerScreenConnected = decide (0 < d.audioTracks)) ∧
    ((startRecording (c5State d) envMicFail).status = Status.idle ∧
     (startRecording (c5State d) envMicFail).error = some startFailedMsg ∧
     (startRecording (c5State d) envMicFail).recorder = none) := by
  have hne : ¬ d.videoTracks = 0 := by omega
  constructor
  · simp [startRecording, startAfterDisplay, c5State, c5Env, envAllOk, freshIdle,
      createRecorder, hne, vp9Mime]
  · simp [startRecording, startAfterDisplay, c5State, envMicFail, envAllOk, freshIdle,
      createRecorder, stopAllStreams, stopStreamTracks, hne]

/-- C5, witness at the concrete scenario streams. -/
theorem c5_camera_optional_mic_mandatory_witness :
    0 < screenA.videoTracks ∧
    (startRecording (c5State screenA) (c5Env micA)).status = Status.recording ∧
    (startRecording (c5State screenA) envMicFail).status = Status.idle := by
  refine ⟨by decide, ?_, ?_⟩
  · exact (c5_camera_optional_mic_mandatory screenA micA (by decide)).1.1
  · exact (c5_camera_optional_mic_mandatory screenA micA (by decide)).2.1

/-- C6: the cascade uses the first accepted configuration (vp9 before
vp8, constructor failure falls through, plain fallback last); when no
configuration is accepted, start fails back to idle with the error
surfaced — but the streams acquired during the attempt are still open,
so the zero-open-streams part of the claim fails on the code. -/
theorem c6_cascade_order_and_exhaustion_leak :
    createRecorder envAllOk = some vp9Mime ∧
    createRecorder { envAllOk with vp9Supported := false } = some vp8Mime ∧
    createRecorder { envAllOk with vp9CtorOk := false } = some vp8Mime ∧
    createRecorder envNoEncoder = none ∧
    (startRecording freshIdle envNoEncoder).status = Status.idle ∧
    (startRecording freshIdle envNoEncoder).error = some startFailedMsg ∧
    (startRecording freshIdle envNoEncoder).openStreams = [micA.id, screenA.id] := by decide

/-- C7: for a fresh session, after stop the artifact is published if
and only if the status is stopped and at least one chunk was produced;
with zero chunks the empty-recording error is reported and no artifact
is published. -/
theorem c7_artifact_iff_stopped_and_chunks (s : RecState) (r : Recorder)
    (hr : s.recorder = some r) (hph : ¬ r.phase = RecorderPhase.inactive)
    (hblob : s.recordedBlob = none) :
    ((stopRecording s).recordedBlob.isSome = true ↔
      ((stopRecording s).status = Status.stopped ∧ r.chunks ≠ [])) ∧
    (r.chunks = [] →
      (stopRecording s).error = some emptyRecordingMsg ∧
      (stopRecording s).recordedBlob = none) := by
  have hstop : stopRecording s =
      processChunks { r with phase := RecorderPhase.inactive }
        (releaseRecordingStreams
          { s with recorder := some { r with phase := RecorderPhase.inactive },
                   rafScheduled := false, intervalActive := false }) := by
    show (stopRecordingEv s).1 = _
    rw [stopRecordingEv_active s r hr hph]
  rw [hstop]
  rcases hch : r.chunks with _ | ⟨c, cs⟩
  · simp [processChunks, releaseRecordingStreams, hch, hblob]
  · simp [processChunks, releaseRecordingStreams, hch]

/-- C7, witness at the concrete mid-session state. -/
theorem c7_artifact_iff_stopped_and_chunks_witness :
    midSession.recordedBlob = none ∧
    ((stopRecording midSession).recordedBlob.isSome = true ↔
      ((stopRecording midSession).status = Status.stopped ∧ recActive.chunks ≠ [])) :=
  ⟨rfl, (c7_artifact_iff_stopped_and_chunks midSession recActive rfl (by decide) rfl).1⟩

/-- C8 counterexample: when the platform reports a non-WebM negotiated
mime, the published artifact declares the requested mime instead of
the negotiated one, so the claim that the declared type always equals
the negotiated encoding is false. -/
theorem c8_declared_mime_not_negotiated :
    (stopRecording midSessionMatroska).recordedBlob = some ([5], vp9Mime) ∧
    vp9Mime ≠ matroskaMime := by decide

/-- C8 amended: the declared media type equals the platform-reported
negotiated mime exactly when that mime is a WebM type; otherwise the
requested configuration mime is declared. -/
theorem c8_declared_mime_rule (s : RecState) (r : Recorder)
    (hr : s.recorder = some r) (hph : ¬ r.phase = RecorderPhase.inactive)
    (hc : r.chunks ≠ []) :
    (stopRecording s).recordedBlob =
      some (r.chunks,
        if strStartsWith r.negotiatedMime "video/webm" then r.negotiatedMime
        else r.reqMime) := by
  have hstop : stopRecording s =
      processChunks { r with phase := RecorderPhase.inactive }
        (releaseRecordingStreams
          { s with recorder := some { r with phase := RecorderPhase.inactive },
                   rafScheduled := false, intervalActive := false }) := by
    show (stopRecordingEv s).1 = _
    rw [stopRecordingEv_active s r hr hph]
  rw [hstop]
  simp [processChunks, declaredMimeOf, hc]

/-- C8 amended, witness at the mid-session state. -/
theorem c8_declared_mime_rule_witness :
    (stopRecording midSession).recordedBlob =
      some (recActive.chunks,
        if strStartsWith recActive.negotiatedMime "video/webm" then recActive.negotiatedMime
        else recActive.reqMime) :=
  c8_declared_mime_rule midSession recActive rfl (by decide) (by decide)

/-- C9 counterexample: with the recorder paused and a decodable screen
frame, one loop invocation still draws (and re-arms), so the claim
that no new frames are drawn while paused is false. -/
theorem c9_draws_while_paused :
    (drawFrameStep (some RecorderPhase.paused) true).1 = true ∧
    (drawFrameStep (some RecorderPhase.paused) true).2 = true := by decide

/-- C9 amended: each loop invocation draws exactly when the screen
frame is decodable — also while paused — and re-arms exactly one next
invocation precisely while the recorder state is recording or paused,
so the loop self-terminates once the state leaves those. -/
theorem c9_loop_terminates_single_schedule (p : Option RecorderPhase) (r : Bool) :
    (drawFrameStep p r).1 = r ∧
    ((drawFrameStep p r).2 = true ↔
      (p = some RecorderPhase.recording ∨ p = some RecorderPhase.paused)) := by
  refine ⟨rfl, ?_⟩
  simp [drawFrameStep]

/-- C10: merging a partial update into the published snapshot changes
exactly the named fields — a property present in the update takes the
updated value, every other property keeps the previous snapshot
value. -/
theorem c10_set_recording_frame (prev : Snapshot) (upd : JsObj) (k : Field) :
    jsGet (setRecordingMerge prev upd) k =
      if (jsGet upd k).isSome then jsGet upd k else jsGet prev.toObj k := by
  unfold setRecordingMerge jsSpread
  exact jsGet_append _ _ _

end BoxingRec
